import Mathlib

/-!
Shallow embedding of the authorization core of the Movies API
(`src/Movies.py`, `src/models.py`, `src/schemas.py`, `src/security.py`,
`src/init_db.py`).

The database session is modelled as an explicit record of rows (`DB`); the
uploads directory on disk as a finite map from paths to contents (`FS`).
Each FastAPI handler becomes a function from the current state and the
verified token payload to `Except HTTPException result` — an `Except.error`
models a raised `HTTPException` (the session is discarded without commit, so
the caller keeps the pre-state), an `Except.ok` carries the result together
with the committed new state where the handler mutates anything.
-/

namespace MoviesApi

/-- Raised error, as in FastAPI: a status code and a detail string. -/
structure HTTPException where
  status : Nat
  detail : String
deriving DecidableEq

/-- Row of the `roles` table (src/models.py, class Role). -/
structure Role where
  id : Nat
  name : String
  description : String
deriving DecidableEq

/-- Row of the `users` table (src/models.py, class Users). -/
structure Users where
  id : Nat
  username : String
  hashed_password : String
  role_id : Nat
deriving DecidableEq

/-- Row of the `movies` table (src/models.py, class Movie). -/
structure Movie where
  id : Nat
  title : String
  hero : String
  genre : String
  heroine : String
  year : Nat
  rating : Float
  created_by : Nat

/-- Row of the `movie_assignments` table (src/models.py, class MovieAssignment).
The code always populates `assigned_by`, so it is modelled as a plain id. -/
structure MovieAssignment where
  id : Nat
  movie_id : Nat
  user_id : Nat
  assigned_by : Nat
deriving DecidableEq

/-- Row of the `movie_files` table (src/models.py, class MovieFile). -/
structure MovieFile where
  id : Nat
  filename : String
  filepath : String
  filetype : String
  source : String
  movie_id : Nat
  uploaded_by : Nat
deriving DecidableEq

/-- The database state: one list of rows per table. -/
structure DB where
  roles : List Role
  users : List Users
  movies : List Movie
  assignments : List MovieAssignment
  files : List MovieFile

/-- The uploads directory, a finite map from file paths to file contents. -/
structure FS where
  entries : List (String × String)

/-- Verified token payload, the fields the handlers read
(`auth["role"]`, `auth["user_id"]`). -/
structure Auth where
  role : String
  user_id : Nat
deriving DecidableEq

/-- Bearer credentials as parsed by the HTTP layer. -/
structure Credentials where
  scheme : String
  credentials : String

/-- src/security.py: the static service API key. -/
def API_KEY : String := "apireadxyznew"

/-- src/security.py `pwd_context.hash`: bcrypt is outside the model (spec
treats password hashing as an external collaborator); modelled as an opaque
tagging function. -/
def hashed_password (password : String) : String := "bcrypt$" ++ password

/-- src/security.py `verify_api_key`: raises 403 on mismatch, returns the key
otherwise. -/
def verify_api_key (api_key : String) : Except HTTPException String :=
  if api_key != API_KEY then .error ⟨403, "Invalid API key"⟩ else .ok api_key

/-- src/Movies.py lines 60-69 `authorize`: validates the API key and the
bearer scheme, then returns the verified token payload unchanged. Token
signature checking is the identity subsystem's job (spec section 6), so the
already-decoded payload is received as an argument; the function performs no
inspection of the payload's role name. -/
def authorize (api_key : Option String) (credentials : Option Credentials)
    (payload : Auth) : Except HTTPException Auth :=
  match api_key with
  | none => .error ⟨403, "Invalid or missing API key"⟩
  | some k =>
    match verify_api_key k with
    | .error e => .error e
    | .ok _ =>
      match credentials with
      | none => .error ⟨401, "Missing or invalid bearer token"⟩
      | some c =>
        if c.scheme.toLower != "bearer" then
          .error ⟨401, "Missing or invalid bearer token"⟩
        else .ok payload

/-- `db.query(Role).filter(Role.id == rid).first()`. -/
def findRoleById (db : DB) (rid : Nat) : Option Role :=
  db.roles.find? (fun r => r.id == rid)

/-- `u.role_obj.name if u.role_obj else None` — the role name reached through
the user's `role_id` foreign key. -/
def userRoleName (db : DB) (u : Users) : Option String :=
  (findRoleById db u.role_id).map (fun r => r.name)

/-- `db.query(Users).filter(Users.id == uid).first()`. -/
def findUserById (db : DB) (uid : Nat) : Option Users :=
  db.users.find? (fun u => u.id == uid)

/-- `db.query(Movie).filter(Movie.id == mid).first()`. -/
def findMovieById (db : DB) (mid : Nat) : Option Movie :=
  db.movies.find? (fun m => m.id == mid)

/-- `db.query(MovieAssignment).filter_by(movie_id=mid, user_id=uid).first()`. -/
def findAssignment (db : DB) (mid uid : Nat) : Option MovieAssignment :=
  db.assignments.find? (fun a => a.movie_id == mid && a.user_id == uid)

/-- Spec section 4.2 `isAssigned(movieId, userId)`: the pair is present. -/
def isAssigned (db : DB) (mid uid : Nat) : Bool :=
  (findAssignment db mid uid).isSome

/-- Movie ids assigned to a user: the `filter_by(user_id=...)` query followed
by collecting `assignment.movie_id` (src/Movies.py lines 173-174). -/
def assignedMovieIds (db : DB) (uid : Nat) : List Nat :=
  (db.assignments.filter (fun a => a.user_id == uid)).map (fun a => a.movie_id)

/-- `query(Users).join(Role).filter(Role.name.in_(names))`: the inner join
drops users whose `role_id` resolves to no role. -/
def usersWithRoleNames (db : DB) (names : List String) : List Users :=
  db.users.filter (fun u => (userRoleName db u).any (fun n => names.contains n))

/-- SQLite autoincrement primary key: one more than the largest id in use. -/
def nextId (ids : List Nat) : Nat := ids.foldr max 0 + 1

/-- `True` exactly on a successful (non-raising) handler outcome. -/
def exceptOk {ε α : Type} (e : Except ε α) : Bool :=
  match e with
  | .ok _ => true
  | .error _ => false

/-- src/init_db.py lines 12-19: the four seeded roles. -/
def seededRoles : List Role :=
  [ { id := 1, name := "super admin", description := "Full access" },
    { id := 2, name := "admin", description := "Admin access" },
    { id := 3, name := "editor", description := "Edit access" },
    { id := 4, name := "viewer", description := "View only" } ]

/-- Response shape of `schemas.UserOut` (role may be absent when the
`role_id` foreign key dangles). -/
structure UserOut where
  id : Nat
  username : String
  role : Option String
deriving DecidableEq

/-- Request body of `schemas.UserCreate`. -/
structure UserCreate where
  username : String
  password : String
  role : String

/-- Request body of `schemas.UserUpdate`; `none` means the field was not set
in the request (`model_dump(exclude_unset=True)` skips it). Explicit JSON
nulls are not modelled. -/
structure UserUpdate where
  username : Option String
  role : Option String

/-- src/Movies.py lines 23-40 `create_user` (POST /auth/register): guarded
only by the static API key — no bearer token, no role check on the caller. -/
def create_user (db : DB) (api_key : String) (user : UserCreate) :
    Except HTTPException (DB × String) :=
  match verify_api_key api_key with
  | .error e => .error e
  | .ok _ =>
    if db.users.any (fun u => u.username == user.username) then
      .error ⟨400, "Username already exists"⟩
    else
      match db.roles.find? (fun r => r.name == user.role) with
      | none => .error ⟨400, "Invalid role"⟩
      | some role_obj =>
        let new_user : Users :=
          { id := nextId (db.users.map (fun u => u.id)),
            username := user.username,
            hashed_password := hashed_password user.password,
            role_id := role_obj.id }
        .ok ({ db with users := db.users ++ [new_user] },
             "User created successfully")

/-- src/Movies.py lines 76-92 `get_all_users` (GET /users/). -/
def get_all_users (db : DB) (auth : Auth) : List UserOut :=
  let joined := db.users.filter (fun u => (findRoleById db u.role_id).isSome)
  let rows :=
    if auth.role == "viewer" then
      joined.filter (fun u =>
        userRoleName db u == some "viewer" && u.id == auth.user_id)
    else if auth.role == "editor" then
      joined.filter (fun u =>
        userRoleName db u == some "viewer" || userRoleName db u == some "editor")
    else if auth.role == "admin" then
      joined.filter (fun u => userRoleName db u != some "super admin")
    else
      joined
  rows.map (fun u => { id := u.id, username := u.username, role := userRoleName db u })

/-- src/Movies.py lines 95-109 `get_user_by_id` (GET /users/user_id). -/
def get_user_by_id (db : DB) (auth : Auth) (user_id : Nat) :
    Except HTTPException UserOut :=
  match findUserById db user_id with
  | none => .error ⟨404, "User not found"⟩
  | some user =>
    let target_role := userRoleName db user
    if auth.role == "viewer" && target_role != some "viewer" then
      .error ⟨403, "Forbidden insufficient permission"⟩
    else if auth.role == "editor" &&
        !(target_role == some "viewer" || target_role == some "editor") then
      .error ⟨403, "Forbidden insufficient permission"⟩
    else if auth.role == "admin" && target_role == some "super admin" then
      .error ⟨403, "Forbidden insufficient permission"⟩
    else
      .ok { id := user.id, username := user.username, role := target_role }

/-- src/Movies.py lines 112-127 `update_user` (PUT /users/user_id).
`model_dump(exclude_unset=True)` yields the explicitly-provided fields;
`setattr(db_user, "role", v)` hits the read-only `Users.role` property
(src/models.py lines 30-33 define it with no setter), so Python raises
AttributeError before `db.commit()` is reached — surfaced as a 500 with the
session discarded, leaving every stored row unchanged. -/
def update_user (db : DB) (auth : Auth) (user_id : Nat)
    (user_update : UserUpdate) : Except HTTPException (DB × Users) :=
  if !(auth.role == "super admin" || auth.role == "admin") then
    .error ⟨403, "Forbidden"⟩
  else
    match findUserById db user_id with
    | none => .error ⟨404, "User not found"⟩
    | some db_user =>
      let role := findRoleById db db_user.role_id
      if auth.role == "admin" && role.map (fun r => r.name) == some "super admin" then
        .error ⟨403, "Forbidden"⟩
      else
        match user_update.role with
        | some _ => .error ⟨500, "Internal Server Error"⟩
        | none =>
          let db_user' :=
            match user_update.username with
            | some un => { db_user with username := un }
            | none => db_user
          let users' := db.users.map (fun u => if u.id == user_id then db_user' else u)
          .ok ({ db with users := users' }, db_user')

/-- Request body of `schemas.MovieCreate` (validation bounds on the fields
are enforced by pydantic at the boundary and are not security-relevant). -/
structure MovieCreate where
  title : String
  hero : String
  genre : String
  heroine : String
  year : Nat
  rating : Float

/-- src/Movies.py lines 148-164 `create_movie` (POST /movies/create): inserts
the movie with `created_by = auth["user_id"]`, then auto-inserts one
assignment per eligible user — every super-admin user when the creator is a
super admin, else every admin-or-super-admin user — each recording
`assigned_by = auth["user_id"]`. -/
def create_movie (db : DB) (auth : Auth) (movie : MovieCreate) :
    Except HTTPException (DB × Movie) :=
  if !(auth.role == "super admin" || auth.role == "admin") then
    .error ⟨403, "Forbidden Insufficient permission"⟩
  else
    let db_movie : Movie :=
      { id := nextId (db.movies.map (fun m => m.id)),
        title := movie.title, hero := movie.hero, genre := movie.genre,
        heroine := movie.heroine, year := movie.year, rating := movie.rating,
        created_by := auth.user_id }
    let users :=
      if auth.role == "super admin" then usersWithRoleNames db ["super admin"]
      else usersWithRoleNames db ["admin", "super admin"]
    let base := nextId (db.assignments.map (fun a => a.id))
    let new_assignments := users.enum.map (fun p =>
      ({ id := base + p.fst, movie_id := db_movie.id, user_id := p.snd.id,
         assigned_by := auth.user_id } : MovieAssignment))
    let movies' := db.movies ++ [db_movie]
    let assignments' := db.assignments ++ new_assignments
    .ok ({ db with movies := movies', assignments := assignments' }, db_movie)

/-- src/Movies.py lines 167-189 `get_all_movies` (GET /movies/): the final
`else` branch — reached by a super admin, but equally by any role name
outside the dispatched three — returns every movie. -/
def get_all_movies (db : DB) (auth : Auth) : List Movie :=
  if auth.role == "viewer" || auth.role == "editor" then
    let movie_ids := assignedMovieIds db auth.user_id
    db.movies.filter (fun m => movie_ids.contains m.id)
  else if auth.role == "admin" then
    let movie_ids := assignedMovieIds db auth.user_id
    let admin_user_ids :=
      (usersWithRoleNames db ["admin"]).map (fun u => u.id)
    db.movies.filter (fun m =>
      admin_user_ids.contains m.created_by || movie_ids.contains m.id)
  else
    db.movies

/-- src/Movies.py lines 248-253 `get_one_movie` (GET /movies/movie_id): the
handler looks the movie up and returns it; beyond the `authorize` dependency
it performs no role or assignment check of its own. -/
def get_one_movie (db : DB) (_auth : Auth) (movie_id : Nat) :
    Except HTTPException Movie :=
  match findMovieById db movie_id with
  | none => .error ⟨404, "Movie not found"⟩
  | some movie => .ok movie

/-- src/Movies.py lines 285-290: the extra check an admin must pass before
assigning on a movie — when the movie's creator is a super admin the
requesting admin must itself hold an assignment on the movie. Dangling
`created_by` or `role_id` foreign keys crash the attribute chain
(`creator.role_obj.name`), surfaced as a 500. -/
def assign_gate (db : DB) (auth : Auth) (movie_id : Nat) (movie : Movie) :
    Except HTTPException Unit :=
  if auth.role == "admin" then
    match findUserById db movie.created_by with
    | none => .error ⟨500, "Internal Server Error"⟩
    | some creator =>
      match findRoleById db creator.role_id with
      | none => .error ⟨500, "Internal Server Error"⟩
      | some r =>
        if r.name == "super admin" then
          if isAssigned db movie_id auth.user_id then .ok ()
          else .error ⟨403, "Forbidden insufficient permission"⟩
        else .ok ()
  else .ok ()

/-- src/Movies.py lines 274-308 `assign_movie` (POST /movies/assign):
`is_assigned = true` requests an assignment (fails 400 when the pair already
exists), `is_assigned = false` an unassignment (fails 400 when it does not);
`db.delete(assignment)` removes the first matching row. -/
def assign_movie (db : DB) (auth : Auth) (movie_id user_id : Nat)
    (is_assigned : Bool) : Except HTTPException (DB × String) :=
  if !(auth.role == "super admin" || auth.role == "admin") then
    .error ⟨403, "Forbidden insufficient permission"⟩
  else
    match findMovieById db movie_id with
    | none => .error ⟨404, "Movie not found"⟩
    | some movie =>
      match findUserById db user_id with
      | none => .error ⟨404, "User not found"⟩
      | some _user =>
        match assign_gate db auth movie_id movie with
        | .error e => .error e
        | .ok _ =>
          let assignment := findAssignment db movie_id user_id
          if is_assigned then
            match assignment with
            | some _ => .error ⟨400, "Movie already assigned to user"⟩
            | none =>
              let new_assignment : MovieAssignment :=
                { id := nextId (db.assignments.map (fun a => a.id)),
                  movie_id := movie_id, user_id := user_id,
                  assigned_by := auth.user_id }
              .ok ({ db with assignments := db.assignments ++ [new_assignment] },
                   "Movie assigned to user successfully")
          else
            match assignment with
            | none => .error ⟨400, "Movie not assigned to user"⟩
            | some _ =>
              let remaining := db.assignments.eraseP
                (fun a => a.movie_id == movie_id && a.user_id == user_id)
              .ok ({ db with assignments := remaining },
                   "Movie unassigned from user successfully")

/-- src/Movies.py lines 317-326 and 340-349: the shared authorization block
of `update_movie` and `delete_movie` — super admin passes unconditionally;
an admin passes unless the creator is a super admin and the admin holds no
assignment on the movie; every other role is denied. -/
def movie_mutation_gate (db : DB) (auth : Auth) (movie_id : Nat)
    (db_movie : Movie) : Except HTTPException Unit :=
  if auth.role == "admin" then
    match findUserById db db_movie.created_by with
    | none => .error ⟨500, "Internal Server Error"⟩
    | some creator =>
      match findRoleById db creator.role_id with
      | none => .error ⟨500, "Internal Server Error"⟩
      | some r =>
        if r.name == "super admin" then
          if isAssigned db movie_id auth.user_id then .ok ()
          else .error ⟨403, "Forbidden insufficient permission"⟩
        else .ok ()
  else if auth.role == "super admin" then .ok ()
  else .error ⟨403, "Forbidden insufficient permission"⟩

/-- src/Movies.py lines 311-332 `update_movie` (PUT /movies/update/movie_id):
after the gate, every `MovieCreate` field is overwritten (`model_dump()` is
full here); `id` and `created_by` are untouched. -/
def update_movie (db : DB) (auth : Auth) (movie_id : Nat)
    (movie : MovieCreate) : Except HTTPException (DB × Movie) :=
  match findMovieById db movie_id with
  | none => .error ⟨404, "Movie not found"⟩
  | some db_movie =>
    match movie_mutation_gate db auth movie_id db_movie with
    | .error e => .error e
    | .ok _ =>
      let db_movie' := { db_movie with
        title := movie.title, hero := movie.hero, genre := movie.genre,
        heroine := movie.heroine, year := movie.year, rating := movie.rating }
      let movies' := db.movies.map (fun m => if m.id == movie_id then db_movie' else m)
      .ok ({ db with movies := movies' }, db_movie')

/-- src/Movies.py lines 335-353 `delete_movie` (DELETE /movies/movie_id):
`db.delete(db_movie)` cascades to the movie's assignment rows (the
`Movie.assignments` relationship carries `cascade="all, delete-orphan"`);
movie files have no such cascade and stay behind. -/
def delete_movie (db : DB) (auth : Auth) (movie_id : Nat) :
    Except HTTPException DB :=
  match findMovieById db movie_id with
  | none => .error ⟨404, "Movie not found"⟩
  | some db_movie =>
    match movie_mutation_gate db auth movie_id db_movie with
    | .error e => .error e
    | .ok _ =>
      let movies' := db.movies.filter (fun m => !(m.id == movie_id))
      let assignments' := db.assignments.filter (fun a => !(a.movie_id == movie_id))
      .ok { db with movies := movies', assignments := assignments' }

/-- The database state after a handler call that returns `DB × α` on success:
on an error the session was never committed, so the caller keeps the
pre-state. -/
def dbAfter {α : Type} (db : DB) (r : Except HTTPException (DB × α)) : DB :=
  match r with
  | .ok (db', _) => db'
  | .error _ => db

/-- src/Movies.py line 16. -/
def ALLOWED_IMAGE_EXTENSIONS : List String := [".jpg", ".jpeg", ".png"]

/-- src/Movies.py line 17. -/
def ALLOWED_DOCUMENT_EXTENSIONS : List String :=
  [".pdf", ".txt", ".ppt", ".pptx", ".doc", ".docx", ".xls"]

/-- src/Movies.py line 13. -/
def UPLOAD_DIR : String := "uploads"

/-- Count of leading dot characters. -/
def leadingDots : List Char → Nat
  | '.' :: rest => leadingDots rest + 1
  | _ => 0

/-- `os.path.splitext(s)[1]` for a plain file name (no directory separators,
which uploaded names are): the extension starts at the last dot, except that
the leading dots of a name never begin an extension
(`.bashrc` has none, `a.tar.gz` has `.gz`, `a.` has `.`). -/
def splitextExt (s : String) : String :=
  let cs := s.toList
  let dots := (List.range cs.length).filter (fun i => cs.getD i ' ' == '.')
  match dots.getLast? with
  | some p => if leadingDots cs ≤ p then String.mk (cs.drop p) else ""
  | none => ""

/-- `os.path.join(UPLOAD_DIR, filename)`; `os.path.abspath` resolution is
outside the model, paths are compared syntactically. -/
def uploadPath (filename : String) : String := UPLOAD_DIR ++ "/" ++ filename

/-- True when the uploads directory holds a file at this path
(`os.path.exists`). -/
def FS.pathExists (fs : FS) (p : String) : Bool :=
  fs.entries.any (fun e => e.fst == p)

/-- Write a file, replacing any previous content at the path
(`open(path, "wb")`). -/
def FS.write (fs : FS) (p content : String) : FS :=
  ⟨(fs.entries.filter (fun e => e.fst != p)) ++ [(p, content)]⟩

/-- `os.remove` guarded by `os.path.exists`. -/
def FS.remove (fs : FS) (p : String) : FS :=
  ⟨fs.entries.filter (fun e => e.fst != p)⟩

/-- An uploaded multipart file: declared name, declared content type, bytes. -/
structure UploadFile where
  filename : String
  contentType : String
  content : String

/-- A `FileResponse`: the path streamed from disk at response time, the
download name, and the declared media type (absent when defaulted). -/
structure FileResponse where
  path : String
  filename : String
  mediaType : Option String
deriving DecidableEq

/-- src/Movies.py lines 508-515: media type from the lowercased file name's
extension, defaulting to `image/jpeg`. -/
def mediaTypeFor (filename : String) : String :=
  let ext := splitextExt filename.toLower
  if ext == ".jpg" || ext == ".jpeg" then "image/jpeg"
  else if ext == ".png" then "image/png"
  else if ext == ".gif" then "image/gif"
  else "image/jpeg"

/-- src/Movies.py lines 360-437 `upload_movie_files`
(POST /files/movies/movie_id/upload): viewer denied outright; admin gated on
the super-admin-creator rule; editor gated on holding an assignment; then the
extension is validated against the allow-list selected by the content type,
the bytes are written under `uploads/`, and the record is inserted. -/
def upload_movie_files (db : DB) (fs : FS) (auth : Auth) (movie_id : Nat)
    (source : String) (file : UploadFile) :
    Except HTTPException (DB × FS × MovieFile) :=
  match findMovieById db movie_id with
  | none => .error ⟨404, "Movie not found"⟩
  | some movie =>
    if auth.role == "viewer" then
      .error ⟨403, "Forbidden: insufficient permission"⟩
    else
      let adminGate : Except HTTPException Unit :=
        if auth.role == "admin" then
          match findUserById db movie.created_by with
          | none => .error ⟨500, "Internal Server Error"⟩
          | some creator =>
            match findRoleById db creator.role_id with
            | none => .error ⟨500, "Internal Server Error"⟩
            | some r =>
              if r.name == "super admin" then
                if isAssigned db movie_id auth.user_id then .ok ()
                else .error ⟨403, "Forbidden: project not assigned"⟩
              else .ok ()
        else .ok ()
      match adminGate with
      | .error e => .error e
      | .ok _ =>
        let editorGate : Except HTTPException Unit :=
          if auth.role == "editor" then
            if isAssigned db movie_id auth.user_id then .ok ()
            else .error ⟨403, "Forbidden: project not assigned"⟩
          else .ok ()
        match editorGate with
        | .error e => .error e
        | .ok _ =>
          let ext := splitextExt file.filename.toLower
          let classified : Except HTTPException String :=
            if file.contentType.startsWith "image/" then
              if !(ALLOWED_IMAGE_EXTENSIONS.contains ext) then
                .error ⟨400, "Invalid image file type"⟩
              else .ok "images"
            else
              if !(ALLOWED_DOCUMENT_EXTENSIONS.contains ext) then
                .error ⟨400, "Invalid document file type"⟩
              else .ok "documents"
          match classified with
          | .error e => .error e
          | .ok filetype =>
            let save_path := uploadPath file.filename
            let fs' := fs.write save_path file.content
            let movie_file : MovieFile :=
              { id := nextId (db.files.map (fun f => f.id)),
                filename := file.filename, filepath := save_path,
                filetype := filetype, source := source,
                uploaded_by := auth.user_id, movie_id := movie_id }
            .ok ({ db with files := db.files ++ [movie_file] }, fs', movie_file)

/-- src/Movies.py lines 440-465 `get_movie_files`
(GET /files/movies/movie_id/files): viewer gated on an assignment; admin on
the super-admin-creator rule; editor and super admin pass. `if source:` is
falsy for both `None` and the empty string. -/
def get_movie_files (db : DB) (auth : Auth) (movie_id : Nat)
    (source : Option String) : Except HTTPException (List MovieFile) :=
  match findMovieById db movie_id with
  | none => .error ⟨404, "Movie not found"⟩
  | some movie =>
    let viewerGate : Except HTTPException Unit :=
      if auth.role == "viewer" then
        if isAssigned db movie_id auth.user_id then .ok ()
        else .error ⟨403, "Forbidden insufficient permission project not assigned"⟩
      else .ok ()
    match viewerGate with
    | .error e => .error e
    | .ok _ =>
      let adminGate : Except HTTPException Unit :=
        if auth.role == "admin" then
          match findUserById db movie.created_by with
          | none => .error ⟨500, "Internal Server Error"⟩
          | some creator =>
            match findRoleById db creator.role_id with
            | none => .error ⟨500, "Internal Server Error"⟩
            | some r =>
              if r.name == "super admin" then
                if isAssigned db movie_id auth.user_id then .ok ()
                else .error ⟨403, "Admin cannot view files of super admin's movie"⟩
              else .ok ()
        else .ok ()
      match adminGate with
      | .error e => .error e
      | .ok _ =>
        let base := db.files.filter (fun f => f.movie_id == movie_id)
        match source with
        | some s => if s == "" then .ok base else .ok (base.filter (fun f => f.source == s))
        | none => .ok base

/-- src/Movies.py lines 468-528 `get_image_file` (GET /files/images/file_id):
the one handler with no `authorize` dependency — it takes no API key, bearer
token, role or assignment input at all. Serves the record's path when the
file exists there; otherwise retries `uploads/filename` and, on a hit,
commits the corrected path back to the record; otherwise 404. Only records
with `filetype = "images"` are served. -/
def get_image_file (db : DB) (fs : FS) (file_id : Nat) :
    Except HTTPException (DB × FileResponse) :=
  match db.files.find? (fun f => f.id == file_id) with
  | none => .error ⟨404, "File not found in database"⟩
  | some movie_file =>
    if movie_file.filetype != "images" then .error ⟨404, "Not an image file"⟩
    else if fs.pathExists movie_file.filepath then
      .ok (db, { path := movie_file.filepath, filename := movie_file.filename,
                 mediaType := some (mediaTypeFor movie_file.filename) })
    else
      let alternative_path := uploadPath movie_file.filename
      if fs.pathExists alternative_path then
        let movie_file' := { movie_file with filepath := alternative_path }
        let files' := db.files.map (fun f => if f.id == file_id then movie_file' else f)
        .ok ({ db with files := files' },
             { path := alternative_path, filename := movie_file.filename,
               mediaType := some (mediaTypeFor movie_file.filename) })
      else .error ⟨404, "File not found on server"⟩

/-- src/Movies.py lines 531-557 `delete_movie_file` (DELETE /files/file_id):
a viewer is denied unconditionally — the handler rejects the role before any
assignment lookup; admin and editor are gated as in the other file handlers.
On success the disk file (when present) and the record are removed. -/
def delete_movie_file (db : DB) (fs : FS) (auth : Auth) (file_id : Nat) :
    Except HTTPException (DB × FS) :=
  match db.files.find? (fun f => f.id == file_id) with
  | none => .error ⟨404, "File not found"⟩
  | some movie_file =>
    match findMovieById db movie_file.movie_id with
    | none => .error ⟨404, "Associated movie not found"⟩
    | some movie =>
      if auth.role == "viewer" then
        .error ⟨403, "Forbidden insufficient permission"⟩
      else
        let adminGate : Except HTTPException Unit :=
          if auth.role == "admin" then
            match findUserById db movie.created_by with
            | none => .error ⟨500, "Internal Server Error"⟩
            | some creator =>
              match findRoleById db creator.role_id with
              | none => .error ⟨500, "Internal Server Error"⟩
              | some r =>
                if r.name == "super admin" then
                  if isAssigned db movie.id auth.user_id then .ok ()
                  else .error ⟨403, "Admin cannot delete files of super admin's movie"⟩
                else .ok ()
          else .ok ()
        match adminGate with
        | .error e => .error e
        | .ok _ =>
          let editorGate : Except HTTPException Unit :=
            if auth.role == "editor" then
              if isAssigned db movie.id auth.user_id then .ok ()
              else .error ⟨403, "Editor can delete files only of assigned movies"⟩
            else .ok ()
          match editorGate with
          | .error e => .error e
          | .ok _ =>
            let fs' := fs.remove movie_file.filepath
            let files' := db.files.eraseP (fun f => f.id == file_id)
            .ok ({ db with files := files' }, fs')

/-- src/Movies.py lines 559-582 `download_movie_file`
(GET /files/download/file_id): the parent movie is looked up without a
not-found check — a dangling `movie_id` crashes the later attribute accesses
(`movie.id`, `movie.creator`) in the role branches, surfaced as a 500. The
response streams the stored path at response time. -/
def download_movie_file (db : DB) (auth : Auth) (file_id : Nat) :
    Except HTTPException FileResponse :=
  match db.files.find? (fun f => f.id == file_id) with
  | none => .error ⟨404, "File not found"⟩
  | some movie_file =>
    let movieq := findMovieById db movie_file.movie_id
    let viewerGate : Except HTTPException Unit :=
      if auth.role == "viewer" then
        match movieq with
        | none => .error ⟨500, "Internal Server Error"⟩
        | some movie =>
          if isAssigned db movie.id auth.user_id then .ok ()
          else .error ⟨403, "project not assigned"⟩
      else .ok ()
    match viewerGate with
    | .error e => .error e
    | .ok _ =>
      let adminGate : Except HTTPException Unit :=
        if auth.role == "admin" then
          match movieq with
          | none => .error ⟨500, "Internal Server Error"⟩
          | some movie =>
            match findUserById db movie.created_by with
            | none => .error ⟨500, "Internal Server Error"⟩
            | some creator =>
              match findRoleById db creator.role_id with
              | none => .error ⟨500, "Internal Server Error"⟩
              | some r =>
                if r.name == "super admin" then
                  if isAssigned db movie.id auth.user_id then .ok ()
                  else .error ⟨403, "Admin cannot download files of super admin's movie"⟩
                else .ok ()
        else .ok ()
      match adminGate with
      | .error e => .error e
      | .ok _ =>
        let editorGate : Except HTTPException Unit :=
          if auth.role == "editor" then
            match movieq with
            | none => .error ⟨500, "Internal Server Error"⟩
            | some movie =>
              if isAssigned db movie.id auth.user_id then .ok ()
              else .error ⟨403, "Editor can download files only of assigned movies"⟩
          else .ok ()
        match editorGate with
        | .error e => .error e
        | .ok _ =>
          .ok { path := movie_file.filepath, filename := movie_file.filename,
                mediaType := none }

/-! Concrete states used to exercise the handlers. -/

/-- A movie owned by user 1. -/
def mInception : Movie :=
  { id := 1, title := "Inception", hero := "Leo", genre := "thriller",
    heroine := "Ellen", year := 2010, rating := 8.8, created_by := 1 }

/-- State for exercising unknown-role identities: one super admin, one movie. -/
def c1db : DB :=
  { roles := seededRoles,
    users := [{ id := 1, username := "root", hashed_password := "bcrypt$r", role_id := 1 }],
    movies := [mInception], assignments := [], files := [] }

/-- State with one super admin, one viewer and one movie, no assignments. -/
def c2db : DB :=
  { roles := seededRoles,
    users := [{ id := 1, username := "root", hashed_password := "bcrypt$r", role_id := 1 },
              { id := 2, username := "vera", hashed_password := "bcrypt$v", role_id := 4 }],
    movies := [mInception], assignments := [], files := [] }

/-- Movie with a given id owned by user 1, for bulk states. -/
def mkMovie (i : Nat) : Movie :=
  { id := i, title := "Film", hero := "Hero", genre := "genre", heroine := "Her",
    year := 2000, rating := 5.0, created_by := 1 }

/-- State where viewer 7 has assignment set exactly -- set brace 5, 9 --
among movies 1, 5, 7, 9. -/
def c2db59 : DB :=
  { roles := seededRoles,
    users := [{ id := 1, username := "root", hashed_password := "bcrypt$r", role_id := 1 },
              { id := 7, username := "vic", hashed_password := "bcrypt$v", role_id := 4 }],
    movies := [mkMovie 1, mkMovie 5, mkMovie 7, mkMovie 9],
    assignments := [{ id := 1, movie_id := 5, user_id := 7, assigned_by := 1 },
                    { id := 2, movie_id := 9, user_id := 7, assigned_by := 1 }],
    files := [] }

/-- State with a super admin (1), an admin (2), and a super-admin-owned
movie with no assignments. -/
def c3db : DB :=
  { roles := seededRoles,
    users := [{ id := 1, username := "root", hashed_password := "bcrypt$r", role_id := 1 },
              { id := 2, username := "adam", hashed_password := "bcrypt$a", role_id := 2 }],
    movies := [mInception], assignments := [], files := [] }

/-- An update payload for movies. -/
def mcUpdate : MovieCreate :=
  { title := "Tenet", hero := "John", genre := "action", heroine := "Kat",
    year := 2020, rating := 7.4 }

/-- Pre-creation state: a super admin (1) and an admin (2), no movies. -/
def c4db : DB :=
  { roles := seededRoles,
    users := [{ id := 1, username := "root", hashed_password := "bcrypt$r", role_id := 1 },
              { id := 2, username := "adam", hashed_password := "bcrypt$a", role_id := 2 }],
    movies := [], assignments := [], files := [] }

/-- The movie `create_movie` builds from `mcUpdate` in `c4db` for creator 1. -/
def c4movie : Movie :=
  { id := 1, title := "Tenet", hero := "John", genre := "action", heroine := "Kat",
    year := 2020, rating := 7.4, created_by := 1 }

/-- The state after the super admin creates `mcUpdate`'s movie in `c4db`. -/
def c4dbAfter : DB :=
  { roles := seededRoles,
    users := [{ id := 1, username := "root", hashed_password := "bcrypt$r", role_id := 1 },
              { id := 2, username := "adam", hashed_password := "bcrypt$a", role_id := 2 }],
    movies := [c4movie],
    assignments := [{ id := 1, movie_id := 1, user_id := 1, assigned_by := 1 }],
    files := [] }

/-- State with two viewer users. -/
def c5db : DB :=
  { roles := seededRoles,
    users := [{ id := 1, username := "alice", hashed_password := "bcrypt$a", role_id := 4 },
              { id := 2, username := "bob", hashed_password := "bcrypt$b", role_id := 4 }],
    movies := [], assignments := [], files := [] }

/-- State where viewer 2 is assigned to super-admin-owned movie 1 which has
one image file. -/
def c6db : DB :=
  { roles := seededRoles,
    users := [{ id := 1, username := "root", hashed_password := "bcrypt$r", role_id := 1 },
              { id := 2, username := "vera", hashed_password := "bcrypt$v", role_id := 4 }],
    movies := [mInception],
    assignments := [{ id := 1, movie_id := 1, user_id := 2, assigned_by := 1 }],
    files := [{ id := 1, filename := "a.jpg", filepath := "uploads/a.jpg",
                filetype := "images", source := "local", movie_id := 1,
                uploaded_by := 1 }] }

/-- Uploads directory holding the one image of `c6db`. -/
def c6fs : FS := ⟨[("uploads/a.jpg", "IMG")]⟩

/-- An upload request carrying a valid image. -/
def uplJpg : UploadFile :=
  { filename := "b.jpg", contentType := "image/jpeg", content := "IMGB" }

/-- State with a super admin (1) and a viewer (2), one movie, no assignments. -/
def c7db : DB :=
  { roles := seededRoles,
    users := [{ id := 1, username := "root", hashed_password := "bcrypt$r", role_id := 1 },
              { id := 2, username := "vera", hashed_password := "bcrypt$v", role_id := 4 }],
    movies := [mInception], assignments := [], files := [] }

/-- `c7db` with the pair (movie 1, user 2) assigned by user 1. -/
def c7dbAssigned : DB :=
  { roles := seededRoles,
    users := [{ id := 1, username := "root", hashed_password := "bcrypt$r", role_id := 1 },
              { id := 2, username := "vera", hashed_password := "bcrypt$v", role_id := 4 }],
    movies := [mInception],
    assignments := [{ id := 1, movie_id := 1, user_id := 2, assigned_by := 1 }],
    files := [] }

/-- State holding one image file record whose bytes may or may not be on
disk. -/
def c9db : DB :=
  { roles := seededRoles, users := [], movies := [mInception], assignments := [],
    files := [{ id := 1, filename := "a.jpg", filepath := "uploads/a.jpg",
                filetype := "images", source := "local", movie_id := 1,
                uploaded_by := 1 }] }

/-- Empty uploads directory. -/
def fsEmpty : FS := ⟨[]⟩

/-- Uploads directory holding the image of `c9db`. -/
def c9fs : FS := ⟨[("uploads/a.jpg", "IMG")]⟩

/-- Fresh state carrying only the seeded roles. -/
def c10db : DB :=
  { roles := seededRoles, users := [], movies := [], assignments := [], files := [] }

/-! Claim theorems. -/

/-- C2 counterexample: in `c2db` the viewer with user id 2 has an empty
assignment set, yet the single read of movie 1 by id succeeds and returns the
movie — refuting that a read by id is allowed only when the movie is in the
identity's own assignment set. -/
theorem c2_counterexample :
    get_one_movie c2db { role := "viewer", user_id := 2 } 1 = .ok mInception
    ∧ isAssigned c2db 1 2 = false := by
  constructor
  · rfl
  · decide

/-- C2 as amended: for a viewer or editor identity, membership in the list
result is exactly the identity's own assignment set (so a viewer whose
assignment set is exactly two movie ids lists exactly those movies however
many movies exist); the single read by id, however, performs no authorization
check and returns any existing movie. -/
theorem c2_list_exact_single_read_unrestricted (db : DB) (auth : Auth)
    (h : auth.role = "viewer" ∨ auth.role = "editor") :
    (∀ m : Movie, m ∈ get_all_movies db auth ↔
      m ∈ db.movies ∧ ∃ a ∈ db.assignments,
        a.user_id = auth.user_id ∧ a.movie_id = m.id)
    ∧ (∀ movie_id mv, findMovieById db movie_id = some mv →
        get_one_movie db auth movie_id = .ok mv) := by
  have hcond : (auth.role == "viewer" || auth.role == "editor") = true := by
    rcases h with h | h <;> simp [h]
  constructor
  · intro m
    simp only [get_all_movies, hcond, if_true]
    simp [assignedMovieIds, List.mem_filter, List.mem_map]
    intro _
    constructor
    · rintro ⟨a, ⟨ha, hu⟩, hm⟩
      exact ⟨a, ha, hu, hm⟩
    · rintro ⟨a, ha, hu, hm⟩
      exact ⟨a, ⟨ha, hu⟩, hm⟩
  · intro movie_id mv hm
    simp [get_one_movie, hm]

/-- C2 witness: in `c2db59` the viewer with user id 7 (assignment set
exactly movies 5 and 9) lists movie 5. -/
theorem c2_witness :
    mkMovie 5 ∈ get_all_movies c2db59 { role := "viewer", user_id := 7 } ↔
      mkMovie 5 ∈ c2db59.movies ∧ ∃ a ∈ c2db59.assignments,
        a.user_id = 7 ∧ a.movie_id = (mkMovie 5).id :=
  (c2_list_exact_single_read_unrestricted c2db59 { role := "viewer", user_id := 7 }
    (Or.inl rfl)).1 (mkMovie 5)

/-- C5 counterexample: viewer 1 reads viewer 2's record by id and the
handler returns it, although user 2 is not the requester's own record —
refuting that a viewer's single read is allowed only for their own record. -/
theorem c5_counterexample :
    get_user_by_id c5db { role := "viewer", user_id := 1 } 2 =
      .ok { id := 2, username := "bob", role := some "viewer" }
    ∧ (1 : Nat) ≠ 2 := by
  exact ⟨rfl, by decide⟩

/-- C5 as amended: for a viewer identity the list-users result contains
exactly the ids of users whose role is viewer and whose id is the
requester's own; the single read by id, however, succeeds for every user
whose role is viewer — self or not. -/
theorem c5_list_self_scoped_single_read_any_viewer (db : DB) (auth : Auth)
    (h : auth.role = "viewer") :
    (∀ i : Nat, i ∈ (get_all_users db auth).map (fun u => u.id) ↔
      ∃ u ∈ db.users, u.id = i ∧ userRoleName db u = some "viewer"
        ∧ i = auth.user_id)
    ∧ (∀ uid, exceptOk (get_user_by_id db auth uid) = true ↔
        ∃ u, findUserById db uid = some u ∧ userRoleName db u = some "viewer") := by
  have hb : (auth.role == "viewer") = true := by simp [h]
  constructor
  · intro i
    simp only [get_all_users, hb, if_true]
    simp only [List.mem_map, List.mem_filter, Bool.and_eq_true, beq_iff_eq]
    constructor
    · rintro ⟨uo, ⟨u, ⟨⟨hu, _⟩, hrole, hid⟩, rfl⟩, rfl⟩
      exact ⟨u, hu, rfl, hrole, hid⟩
    · rintro ⟨u, hu, rfl, hrole, hid⟩
      refine ⟨_, ⟨u, ⟨⟨hu, ?_⟩, hrole, hid⟩, rfl⟩, rfl⟩
      rcases Option.map_eq_some'.mp hrole with ⟨r, hr, _⟩
      simp [hr]
  · intro uid
    cases hfind : findUserById db uid with
    | none => simp [get_user_by_id, hfind, exceptOk]
    | some u =>
      by_cases htr : userRoleName db u = some "viewer"
      · simp [get_user_by_id, hfind, h, htr, exceptOk]
      · simp [get_user_by_id, hfind, h, htr, exceptOk]

/-- C5 witness: in `c5db`, viewer 1's list result contains id 1 (their own
record, a viewer). -/
theorem c5_witness :
    1 ∈ (get_all_users c5db { role := "viewer", user_id := 1 }).map (fun u => u.id) ↔
      ∃ u ∈ c5db.users, u.id = 1 ∧ userRoleName c5db u = some "viewer" ∧ 1 = 1 :=
  (c5_list_self_scoped_single_read_any_viewer c5db
    { role := "viewer", user_id := 1 } rfl).1 1

/-- C1 counterexample: an identity carrying the unknown role name `ghost` is
not rejected by the list-movies operation — it receives exactly what a super
admin receives, the full (non-empty) movie set of `c1db` — refuting that
every operation rejects unknown-role identities before any authorization
decision. -/
theorem c1_counterexample :
    get_all_movies c1db { role := "ghost", user_id := 42 } =
      get_all_movies c1db { role := "super admin", user_id := 42 }
    ∧ (get_all_movies c1db { role := "ghost", user_id := 42 }).map (fun m => m.id)
        = [1] :=
  ⟨rfl, by decide⟩

/-- C1 as amended: identities whose role name is none of the four known names
are not rejected as malformed — `authorize` succeeds or fails identically for
them and for a super admin (it never inspects the role), the list operations'
role dispatch falls through to the super-admin branch (such an identity sees
every movie, and the same user set a super admin sees), and the single-movie
read performs no role check at all. -/
theorem c1_unknown_role_treated_as_super_admin (db : DB) (auth : Auth)
    (_h1 : auth.role ≠ "super admin") (h2 : auth.role ≠ "admin")
    (h3 : auth.role ≠ "editor") (h4 : auth.role ≠ "viewer") :
    (∀ k cr, exceptOk (authorize k cr auth) =
      exceptOk (authorize k cr { role := "super admin", user_id := auth.user_id }))
    ∧ get_all_movies db auth = db.movies
    ∧ get_all_users db auth =
        get_all_users db { role := "super admin", user_id := auth.user_id }
    ∧ (∀ mid mv, findMovieById db mid = some mv →
        get_one_movie db auth mid = .ok mv) := by
  have e1 : (auth.role == "viewer") = false := by simp [h4]
  have e2 : (auth.role == "editor") = false := by simp [h3]
  have e3 : (auth.role == "admin") = false := by simp [h2]
  refine ⟨?_, ?_, ?_, ?_⟩
  · intro k cr
    cases k with
    | none => rfl
    | some s =>
      cases cr with
      | none => cases hv : verify_api_key s <;> simp [authorize, hv]
      | some c =>
        cases hv : verify_api_key s <;>
          by_cases hs : c.scheme.toLower = "bearer" <;>
            simp [authorize, hv, hs, exceptOk]
  · simp [get_all_movies, e1, e2, e3]
  · simp [get_all_users, e1, e2, e3]
  · intro mid mv hm
    simp [get_one_movie, hm]

/-- C1 witness: in `c1db` the identity with role `ghost` lists every movie. -/
theorem c1_witness :
    get_all_movies c1db { role := "ghost", user_id := 42 } = c1db.movies :=
  (c1_unknown_role_treated_as_super_admin c1db { role := "ghost", user_id := 42 }
    (by decide) (by decide) (by decide) (by decide)).2.1

/-- C3: for an existing movie, update and delete succeed unconditionally for
a super admin; for an admin they succeed exactly when the movie's creator is
not a super admin, or the requesting admin is in the movie's assignment set;
for an editor or viewer they are always denied with a 403. -/
theorem c3_update_delete_authorization (db : DB) (auth : Auth)
    (movie_id : Nat) (mc : MovieCreate) (m : Movie) (c : Users) (r : Role)
    (hm : findMovieById db movie_id = some m)
    (hc : findUserById db m.created_by = some c)
    (hr : findRoleById db c.role_id = some r) :
    (auth.role = "super admin" →
      exceptOk (update_movie db auth movie_id mc) = true
      ∧ exceptOk (delete_movie db auth movie_id) = true)
    ∧ (auth.role = "admin" →
        ((exceptOk (update_movie db auth movie_id mc) = true ↔
          (r.name ≠ "super admin" ∨ isAssigned db movie_id auth.user_id = true))
        ∧ (exceptOk (delete_movie db auth movie_id) = true ↔
          (r.name ≠ "super admin" ∨ isAssigned db movie_id auth.user_id = true))))
    ∧ ((auth.role = "editor" ∨ auth.role = "viewer") →
        update_movie db auth movie_id mc =
          .error ⟨403, "Forbidden insufficient permission"⟩
        ∧ delete_movie db auth movie_id =
          .error ⟨403, "Forbidden insufficient permission"⟩) := by
  refine ⟨?_, ?_, ?_⟩
  · intro hsa
    constructor <;>
      simp [update_movie, delete_movie, movie_mutation_gate, hm, hsa, exceptOk]
  · intro had
    by_cases hrn : r.name = "super admin" <;>
      by_cases has : isAssigned db movie_id auth.user_id = true <;>
        constructor <;>
          simp [update_movie, delete_movie, movie_mutation_gate, hm, hc, hr,
                had, hrn, has, exceptOk]
  · rintro (he | he) <;>
      constructor <;>
        simp [update_movie, delete_movie, movie_mutation_gate, hm, he]

/-- C3 witness: in `c3db` (movie 1 owned by super admin 1) the super admin
updates and deletes movie 1 successfully. -/
theorem c3_witness :
    exceptOk (update_movie c3db { role := "super admin", user_id := 1 } 1 mcUpdate) = true
    ∧ exceptOk (delete_movie c3db { role := "super admin", user_id := 1 } 1) = true :=
  (c3_update_delete_authorization c3db { role := "super admin", user_id := 1 }
    1 mcUpdate mInception
    { id := 1, username := "root", hashed_password := "bcrypt$r", role_id := 1 }
    { id := 1, name := "super admin", description := "Full access" }
    rfl rfl rfl).1 rfl

/-- Auxiliary: the user ids of the auto-assignment batch built by
`create_movie` are exactly the ids of the eligible users, whatever the
numbering offset. -/
theorem enumFrom_assignment_user_ids (users : List Users)
    (base mid abid n : Nat) :
    ((List.enumFrom n users).map (fun p =>
      ({ id := base + p.fst, movie_id := mid, user_id := p.snd.id,
         assigned_by := abid } : MovieAssignment))).map (fun a => a.user_id)
      = users.map (fun u => u.id) := by
  induction users generalizing n with
  | nil => rfl
  | cons u rest ih => simp [List.enumFrom, ih]

/-- Auxiliary: the previous lemma at offset zero, phrased with `List.enum`
as `create_movie` uses it. -/
theorem enum_assignment_user_ids (users : List Users) (base mid abid : Nat) :
    ((users.enum).map (fun p =>
      ({ id := base + p.fst, movie_id := mid, user_id := p.snd.id,
         assigned_by := abid } : MovieAssignment))).map (fun a => a.user_id)
      = users.map (fun u => u.id) :=
  enumFrom_assignment_user_ids users base mid abid 0

/-- Auxiliary: membership in the id projection of a role-name-filtered user
query. -/
theorem mem_usersWithRoleNames_map_id (db : DB) (names : List String)
    (uid : Nat) :
    uid ∈ (usersWithRoleNames db names).map (fun u => u.id) ↔
      ∃ u ∈ db.users, u.id = uid ∧
        ∃ nm, userRoleName db u = some nm ∧ nm ∈ names := by
  simp only [usersWithRoleNames, List.mem_map, List.mem_filter]
  constructor
  · rintro ⟨u, ⟨hu, hany⟩, rfl⟩
    rcases ho : userRoleName db u with _ | nm
    · rw [ho] at hany; simp [Option.any] at hany
    · rw [ho] at hany
      simp only [Option.any] at hany
      exact ⟨u, hu, rfl, nm, ho, by simpa using hany⟩
  · rintro ⟨u, hu, rfl, nm, ho, hnm⟩
    refine ⟨u, ⟨hu, ?_⟩, rfl⟩
    simp [ho, Option.any, hnm]

/-- C4: on every successful movie creation the committed assignment table is
the old one plus a batch of auto-created rows, each recording the creator as
`assigned_by` and pointing at the new movie; the batch covers exactly the
super-admin users when the creator is a super admin, and exactly the
admin-or-super-admin users when the creator is an admin. -/
theorem c4_auto_assignment (db : DB) (auth : Auth) (movie : MovieCreate)
    (db' : DB) (m : Movie)
    (h : create_movie db auth movie = .ok (db', m)) :
    ∃ newRows : List MovieAssignment,
      db'.assignments = db.assignments ++ newRows
      ∧ (∀ a ∈ newRows, a.assigned_by = auth.user_id ∧ a.movie_id = m.id)
      ∧ (auth.role = "super admin" →
          ∀ uid, uid ∈ newRows.map (fun a => a.user_id) ↔
            ∃ u ∈ db.users, u.id = uid ∧ userRoleName db u = some "super admin")
      ∧ (auth.role = "admin" →
          ∀ uid, uid ∈ newRows.map (fun a => a.user_id) ↔
            ∃ u ∈ db.users, u.id = uid ∧
              (userRoleName db u = some "admin"
                ∨ userRoleName db u = some "super admin")) := by
  by_cases hsa : auth.role = "super admin"
  · have hb : (auth.role == "super admin") = true := by simp [hsa]
    simp only [create_movie, hb] at h
    simp only [Bool.true_or, Bool.not_true, Bool.false_eq_true, if_false,
      if_true, ite_true, ite_false, Except.ok.injEq, Prod.mk.injEq] at h
    obtain ⟨hdb, hmv⟩ := h
    subst hdb hmv
    refine ⟨_, rfl, ?_, ?_, ?_⟩
    · intro a ha
      rcases List.mem_map.mp ha with ⟨p, _, rfl⟩
      exact ⟨rfl, rfl⟩
    · intro _ uid
      rw [enum_assignment_user_ids, mem_usersWithRoleNames_map_id]
      simp
    · intro had
      rw [hsa] at had
      exact absurd had (by decide)
  · by_cases hadm : auth.role = "admin"
    · have hb2 : (auth.role == "super admin") = false := by simp [hsa]
      have hb3 : (auth.role == "admin") = true := by simp [hadm]
      simp only [create_movie, hb2, hb3] at h
      simp only [Bool.false_or, Bool.not_true, Bool.false_eq_true, if_false,
        if_true, ite_true, ite_false, Except.ok.injEq, Prod.mk.injEq] at h
      obtain ⟨hdb, hmv⟩ := h
      subst hdb hmv
      refine ⟨_, rfl, ?_, ?_, ?_⟩
      · intro a ha
        rcases List.mem_map.mp ha with ⟨p, _, rfl⟩
        exact ⟨rfl, rfl⟩
      · intro hx
        rw [hadm] at hx
        exact absurd hx (by decide)
      · intro _ uid
        rw [enum_assignment_user_ids, mem_usersWithRoleNames_map_id]
        constructor
        · rintro ⟨u, hu, rfl, nm, ho, hnm⟩
          rcases List.mem_pair.mp hnm with rfl | rfl
          · exact ⟨u, hu, rfl, Or.inl ho⟩
          · exact ⟨u, hu, rfl, Or.inr ho⟩
        · rintro ⟨u, hu, rfl, ho | ho⟩
          · exact ⟨u, hu, rfl, "admin", ho, by decide⟩
          · exact ⟨u, hu, rfl, "super admin", ho, by decide⟩
    · exfalso
      have hcond : (auth.role == "super admin" || auth.role == "admin") = false := by
        simp [hsa, hadm]
      simp [create_movie, hcond] at h

/-- C4 witness: the super admin (user 1) creates a movie in `c4db`; the
resulting batch assigns exactly the super-admin users and records the
creator. -/
theorem c4_witness :
    ∃ newRows : List MovieAssignment,
      c4dbAfter.assignments = c4db.assignments ++ newRows
      ∧ (∀ a ∈ newRows, a.assigned_by = 1 ∧ a.movie_id = c4movie.id)
      ∧ ((("super admin" : String) = "super admin") →
          ∀ uid, uid ∈ newRows.map (fun a => a.user_id) ↔
            ∃ u ∈ c4db.users, u.id = uid ∧ userRoleName c4db u = some "super admin")
      ∧ ((("super admin" : String) = "admin") →
          ∀ uid, uid ∈ newRows.map (fun a => a.user_id) ↔
            ∃ u ∈ c4db.users, u.id = uid ∧
              (userRoleName c4db u = some "admin"
                ∨ userRoleName c4db u = some "super admin")) :=
  c4_auto_assignment c4db { role := "super admin", user_id := 1 } mcUpdate
    c4dbAfter c4movie rfl

/-- C6 counterexample: viewer 2 holds an assignment on movie 1, the parent
of file 1, yet deleting file 1 is denied with a 403 — refuting that a
viewer's file delete is allowed when the viewer is assigned to the parent
movie. -/
theorem c6_counterexample :
    delete_movie_file c6db c6fs { role := "viewer", user_id := 2 } 1 =
      .error ⟨403, "Forbidden insufficient permission"⟩
    ∧ isAssigned c6db 1 2 = true :=
  ⟨rfl, by decide⟩

/-- C6 as amended: for a viewer and a file whose parent movie exists, upload
and delete are always denied with a 403 regardless of assignments, while
listing the movie's files and downloading the file succeed exactly when the
viewer holds an assignment on the parent movie. -/
theorem c6_viewer_file_access (db : DB) (fs : FS) (auth : Auth) (fid : Nat)
    (f : MovieFile) (m : Movie)
    (hf : db.files.find? (fun x => x.id == fid) = some f)
    (hm : findMovieById db f.movie_id = some m)
    (h : auth.role = "viewer") (src : Option String) (source : String)
    (upl : UploadFile) :
    upload_movie_files db fs auth f.movie_id source upl =
      .error ⟨403, "Forbidden: insufficient permission"⟩
    ∧ delete_movie_file db fs auth fid =
      .error ⟨403, "Forbidden insufficient permission"⟩
    ∧ (exceptOk (get_movie_files db auth f.movie_id src) = true ↔
        isAssigned db f.movie_id auth.user_id = true)
    ∧ (exceptOk (download_movie_file db auth fid) = true ↔
        isAssigned db f.movie_id auth.user_id = true) := by
  have hmid : m.id = f.movie_id := by
    have hp := List.find?_some hm
    simpa using hp
  refine ⟨?_, ?_, ?_, ?_⟩
  · simp [upload_movie_files, hm, h]
  · simp [delete_movie_file, hf, hm, h]
  · by_cases has : isAssigned db f.movie_id auth.user_id = true
    · simp only [get_movie_files, hm, h, has]
      simp only [beq_self_eq_true, if_true, ite_true]
      have hnadm : (("viewer" : String) == "admin") = false := by decide
      simp only [hnadm, Bool.false_eq_true, if_false, ite_false]
      cases src with
      | none => simp [exceptOk, has]
      | some sv =>
        by_cases hs : (sv == "") = true <;> simp [hs, exceptOk, has]
    · simp [get_movie_files, hm, h, has, exceptOk]
  · by_cases has : isAssigned db f.movie_id auth.user_id = true
    · simp [download_movie_file, hf, hm, h, hmid, has, exceptOk]
    · simp [download_movie_file, hf, hm, h, hmid, has, exceptOk]

/-- C6 witness: in `c6db` the assigned viewer 2 can download file 1. -/
theorem c6_witness :
    exceptOk (download_movie_file c6db { role := "viewer", user_id := 2 } 1) = true ↔
      isAssigned c6db 1 2 = true :=
  (c6_viewer_file_access c6db c6fs { role := "viewer", user_id := 2 } 1
    { id := 1, filename := "a.jpg", filepath := "uploads/a.jpg",
      filetype := "images", source := "local", movie_id := 1, uploaded_by := 1 }
    mInception rfl rfl rfl (some "local") "local" uplJpg).2.2.2

/-- Auxiliary: appending rows to the assignment table preserves an existing
pair. -/
theorem isAssigned_append (db : DB) (l : List MovieAssignment) (mid uid : Nat)
    (h : isAssigned db mid uid = true) :
    isAssigned { db with assignments := db.assignments ++ l } mid uid = true := by
  simp only [isAssigned, findAssignment, List.find?_isSome] at h ⊢
  rcases h with ⟨a, ha, hp⟩
  exact ⟨a, List.mem_append_left l ha, hp⟩

/-- Auxiliary: the admin gate of `assign_movie` keeps passing when rows are
appended to the assignment table (users and roles are untouched). -/
theorem assign_gate_append (db : DB) (l : List MovieAssignment) (auth : Auth)
    (movie_id : Nat) (movie : Movie)
    (hg : assign_gate db auth movie_id movie = .ok ()) :
    assign_gate { db with assignments := db.assignments ++ l } auth movie_id
      movie = .ok () := by
  have hg' := hg
  by_cases hadm : (auth.role == "admin") = true
  · simp only [assign_gate, findUserById, findRoleById, isAssigned,
      findAssignment, hadm, if_true, ite_true] at hg' ⊢
    cases hc : db.users.find? (fun u => u.id == movie.created_by) with
    | none => rw [hc] at hg'; exact absurd hg' (by simp)
    | some creator =>
      rw [hc] at hg'
      dsimp only at hg' ⊢
      cases hro : db.roles.find? (fun r => r.id == creator.role_id) with
      | none => rw [hro] at hg'; exact absurd hg' (by simp)
      | some r =>
        rw [hro] at hg'
        dsimp only at hg' ⊢
        by_cases hrn : (r.name == "super admin") = true
        · simp only [hrn, if_true, ite_true] at hg' ⊢
          by_cases has : (db.assignments.find?
              (fun a => a.movie_id == movie_id && a.user_id == auth.user_id)).isSome = true
          · have happ : ((db.assignments ++ l).find?
                (fun a => a.movie_id == movie_id && a.user_id == auth.user_id)).isSome
                  = true := by
              rw [List.find?_append]
              rcases Option.isSome_iff_exists.mp has with ⟨a, ha⟩
              rw [ha]
              rfl
            simp only [happ, eq_self_iff_true, if_true, ite_true]
          · simp only [Bool.not_eq_true] at has
            simp only [has, Bool.false_eq_true, if_false, ite_false] at hg'
            exact absurd hg' (by simp)
        · simp only [Bool.not_eq_true] at hrn
          simp [hrn]
  · simp only [Bool.not_eq_true] at hadm
    simp [assign_gate, hadm]

/-- C7: with both endpoints present and a requester that passes the role and
admin gates, assigning an already-assigned pair fails with the duplicate
error; assigning an absent pair inserts exactly one row recording
`assigned_by`; unassigning an absent pair fails with the not-assigned error
(never silently succeeds); and unassigning right after a successful assign
restores the original assignment table exactly. Every failing call returns
an error, so the caller keeps the unchanged pre-state. -/
theorem c7_assign_unassign (db : DB) (auth : Auth) (movie_id user_id : Nat)
    (movie : Movie) (u : Users)
    (hrole : auth.role = "super admin" ∨ auth.role = "admin")
    (hm : findMovieById db movie_id = some movie)
    (hu : findUserById db user_id = some u)
    (hg : assign_gate db auth movie_id movie = .ok ()) :
    (isAssigned db movie_id user_id = true →
      assign_movie db auth movie_id user_id true =
        .error ⟨400, "Movie already assigned to user"⟩)
    ∧ (isAssigned db movie_id user_id = false →
        assign_movie db auth movie_id user_id true =
          .ok ({ db with assignments := db.assignments ++
              [{ id := nextId (db.assignments.map (fun a => a.id)),
                 movie_id := movie_id, user_id := user_id,
                 assigned_by := auth.user_id }] },
            "Movie assigned to user successfully"))
    ∧ (isAssigned db movie_id user_id = false →
        assign_movie db auth movie_id user_id false =
          .error ⟨400, "Movie not assigned to user"⟩)
    ∧ (isAssigned db movie_id user_id = false →
        ∀ db1 msg, assign_movie db auth movie_id user_id true = .ok (db1, msg) →
          assign_movie db1 auth movie_id user_id false =
            .ok (db, "Movie unassigned from user successfully")) := by
  have hrb : (auth.role == "super admin" || auth.role == "admin") = true := by
    rcases hrole with h | h <;> simp [h]
  have hfa : ∀ b, isAssigned db movie_id user_id = b →
      findAssignment db movie_id user_id = none ∨
        ∃ a, findAssignment db movie_id user_id = some a := by
    intro b _
    cases findAssignment db movie_id user_id
    · exact Or.inl rfl
    · exact Or.inr ⟨_, rfl⟩
  refine ⟨?_, ?_, ?_, ?_⟩
  · intro has
    rcases hfa true has with hnone | ⟨a, hsome⟩
    · rw [isAssigned, hnone] at has; exact absurd has (by simp)
    · simp [assign_movie, hrb, hm, hu, hg, hsome]
  · intro has
    have hnone : findAssignment db movie_id user_id = none := by
      rcases hfa false has with hnone | ⟨a, hsome⟩
      · exact hnone
      · rw [isAssigned, hsome] at has; exact absurd has (by simp)
    simp [assign_movie, hrb, hm, hu, hg, hnone]
  · intro has
    have hnone : findAssignment db movie_id user_id = none := by
      rcases hfa false has with hnone | ⟨a, hsome⟩
      · exact hnone
      · rw [isAssigned, hsome] at has; exact absurd has (by simp)
    simp [assign_movie, hrb, hm, hu, hg, hnone]
  · intro has db1 msg hok
    have hnone : findAssignment db movie_id user_id = none := by
      rcases hfa false has with hnone | ⟨a, hsome⟩
      · exact hnone
      · rw [isAssigned, hsome] at has; exact absurd has (by simp)
    have hres := hok
    simp only [assign_movie, hrb, hm, hu, hg, hnone, if_true, ite_true,
      Bool.not_true, Bool.false_eq_true, if_false, ite_false,
      Except.ok.injEq, Prod.mk.injEq] at hres
    obtain ⟨hdb1, _⟩ := hres
    subst hdb1
    set newRow : MovieAssignment :=
      { id := nextId (db.assignments.map (fun a => a.id)),
        movie_id := movie_id, user_id := user_id,
        assigned_by := auth.user_id } with hnew
    have hm1 : findMovieById
        { db with assignments := db.assignments ++ [newRow] } movie_id
        = some movie := hm
    have hu1 : findUserById
        { db with assignments := db.assignments ++ [newRow] } user_id
        = some u := hu
    have hg1 := assign_gate_append db [newRow] auth movie_id movie hg
    have hsome1 : findAssignment
        { db with assignments := db.assignments ++ [newRow] } movie_id user_id
        = some newRow := by
      simp only [findAssignment]
      rw [List.find?_append]
      rw [show db.assignments.find?
            (fun a => a.movie_id == movie_id && a.user_id == user_id) = none
          from hnone]
      simp [hnew]
    have herase : (db.assignments ++ [newRow]).eraseP
        (fun a => a.movie_id == movie_id && a.user_id == user_id)
        = db.assignments := by
      have hall : ∀ b ∈ db.assignments,
          ¬((fun a => a.movie_id == movie_id && a.user_id == user_id) b = true) := by
        rw [findAssignment] at hnone
        exact List.find?_eq_none.mp hnone
      rw [List.eraseP_append_right [newRow] hall]
      simp [hnew]
    simp only [assign_movie, hrb, hm1, hu1, hg1, hsome1, if_true, ite_true,
      Bool.not_true, Bool.false_eq_true, if_false, ite_false]
    rw [herase]

/-- C7 witness: in `c7db` (no assignments) the super admin assigns movie 1
to user 2, producing exactly one recorded row. -/
theorem c7_witness :
    assign_movie c7db { role := "super admin", user_id := 1 } 1 2 true =
      .ok (c7dbAssigned, "Movie assigned to user successfully") := by
  have h := (c7_assign_unassign c7db { role := "super admin", user_id := 1 } 1 2
    mInception
    { id := 2, username := "vera", hashed_password := "bcrypt$v", role_id := 4 }
    (Or.inl rfl) rfl rfl rfl).2.1 rfl
  exact h

/-- C8: a user's role is fixed at creation — whatever fields a user-update
request carries and however it ends (success, denial, or the 500 raised by
the read-only `role` property), the stored `(id, role_id)` pairs are exactly
what they were before the call. The primary-key hypothesis rules out
duplicate user ids, which SQLite enforces. -/
theorem c8_role_id_preserved (db : DB) (auth : Auth) (uid : Nat)
    (upd : UserUpdate) (hnd : (db.users.map (fun u => u.id)).Nodup) :
    (dbAfter db (update_user db auth uid upd)).users.map
        (fun u => (u.id, u.role_id))
      = db.users.map (fun u => (u.id, u.role_id)) := by
  by_cases h1 : (!(auth.role == "super admin" || auth.role == "admin")) = true
  · simp [update_user, h1, dbAfter]
  · have h1' : (!(auth.role == "super admin" || auth.role == "admin")) = false := by
      simpa using h1
    cases hfind : findUserById db uid with
    | none => simp [update_user, h1', hfind, dbAfter]
    | some du =>
      by_cases h2 : (auth.role == "admin"
          && (findRoleById db du.role_id).map (fun r => r.name)
              == some "super admin") = true
      · simp [update_user, h1', hfind, h2, dbAfter]
      · have h2' : (auth.role == "admin"
            && (findRoleById db du.role_id).map (fun r => r.name)
                == some "super admin") = false := by
          simpa using h2
        cases hrole : upd.role with
        | some rv => simp [update_user, h1', hfind, h2', hrole, dbAfter]
        | none =>
          have hdu : du.id = uid := by simpa using List.find?_some hfind
          have hdumem : du ∈ db.users := List.mem_of_find?_eq_some hfind
          simp only [update_user, h1', hfind, h2', hrole, dbAfter,
            Bool.false_eq_true, if_false, ite_false, if_true, ite_true]
          rw [List.map_map]
          refine List.map_congr_left ?_
          intro u hu
          by_cases hid : (u.id == uid) = true
          · have hueq : u = du := by
              refine List.inj_on_of_nodup_map hnd hu hdumem ?_
              simp only [beq_iff_eq] at hid
              rw [hid, hdu]
            subst hueq
            cases hun : upd.username with
            | some un => simp [hdu]
            | none => simp [hdu]
          · have hne : ¬(u.id = uid) := by simpa using hid
            simp [hne]

/-- C8 witness: in `c3db` an admin (user 2) tries to rename user 1 and
change their role; the stored `(id, role_id)` pairs are unchanged. -/
theorem c8_witness :
    (dbAfter c3db (update_user c3db { role := "admin", user_id := 2 } 1
        { username := some "eve", role := some "admin" })).users.map
        (fun u => (u.id, u.role_id))
      = c3db.users.map (fun u => (u.id, u.role_id)) :=
  c8_role_id_preserved c3db { role := "admin", user_id := 2 } 1
    { username := some "eve", role := some "admin" } (by decide)

/-- C9 counterexample: file record 1 of `c9db` exists with filetype
`images`, yet with an empty uploads directory the image-serving operation
fails with a 404 — refuting that it fails exactly when the record is absent
or its filetype is not `images`. -/
theorem c9_counterexample :
    get_image_file c9db fsEmpty 1 = .error ⟨404, "File not found on server"⟩
    ∧ (c9db.files.find? (fun f => f.id == 1)).map (fun f => f.filetype)
        = some "images" :=
  ⟨rfl, rfl⟩

/-- C9 as amended: the image-serving operation takes no identity input at
all (no API key, bearer token, role or assignment precondition appears in
its signature); it succeeds exactly when the record exists, its filetype is
`images`, and the bytes are present at the stored path or under
`uploads/filename`; every failure is a 404; and the served path always
exists on disk. -/
theorem c9_image_serving (db : DB) (fs : FS) (fid : Nat) :
    (exceptOk (get_image_file db fs fid) = true ↔
      ∃ mf, db.files.find? (fun f => f.id == fid) = some mf
        ∧ mf.filetype = "images"
        ∧ (fs.pathExists mf.filepath = true
            ∨ fs.pathExists (uploadPath mf.filename) = true))
    ∧ (∀ e, get_image_file db fs fid = .error e → e.status = 404)
    ∧ (∀ db' r, get_image_file db fs fid = .ok (db', r) →
        fs.pathExists r.path = true) := by
  cases hf : db.files.find? (fun f => f.id == fid) with
  | none =>
    refine ⟨?_, ?_, ?_⟩
    · simp [get_image_file, hf, exceptOk]
    · intro e he
      simp only [get_image_file, hf, Except.error.injEq] at he
      rw [← he]
    · intro db' r h
      simp [get_image_file, hf] at h
  | some mf =>
    by_cases ht : mf.filetype = "images"
    · have htb : (mf.filetype != "images") = false := by simp [ht]
      by_cases hp1 : fs.pathExists mf.filepath = true
      · refine ⟨?_, ?_, ?_⟩
        · simp [get_image_file, hf, htb, hp1, exceptOk, ht]
        · intro e he
          simp [get_image_file, hf, htb, hp1] at he
        · intro db' r h
          simp only [get_image_file, hf, htb, hp1, Bool.false_eq_true,
            if_false, ite_false, if_true, ite_true, Except.ok.injEq,
            Prod.mk.injEq] at h
          obtain ⟨-, rfl⟩ := h
          exact hp1
      · have hp1' : fs.pathExists mf.filepath = false := by simpa using hp1
        by_cases hp2 : fs.pathExists (uploadPath mf.filename) = true
        · refine ⟨?_, ?_, ?_⟩
          · simp [get_image_file, hf, htb, hp1', hp2, exceptOk, ht]
          · intro e he
            simp [get_image_file, hf, htb, hp1', hp2] at he
          · intro db' r h
            simp only [get_image_file, hf, htb, hp1', hp2, Bool.false_eq_true,
              if_false, ite_false, if_true, ite_true, Except.ok.injEq,
              Prod.mk.injEq] at h
            obtain ⟨-, rfl⟩ := h
            exact hp2
        · have hp2' : fs.pathExists (uploadPath mf.filename) = false := by
            simpa using hp2
          refine ⟨?_, ?_, ?_⟩
          · simp [get_image_file, hf, htb, hp1', hp2', exceptOk, ht]
          · intro e he
            simp only [get_image_file, hf, htb, hp1', hp2', Bool.false_eq_true,
              if_false, ite_false, Except.error.injEq] at he
            rw [← he]
          · intro db' r h
            simp [get_image_file, hf, htb, hp1', hp2'] at h
    · have htb : (mf.filetype != "images") = true := by simp [ht]
      refine ⟨?_, ?_, ?_⟩
      · simp [get_image_file, hf, htb, exceptOk, ht]
      · intro e he
        simp only [get_image_file, hf, htb, if_true, ite_true,
          Except.error.injEq] at he
        rw [← he]
      · intro db' r h
        simp [get_image_file, hf, htb] at h

/-- C9 witness: with the bytes present in `c9fs`, serving image 1 of `c9db`
succeeds exactly as characterized. -/
theorem c9_witness :
    exceptOk (get_image_file c9db c9fs 1) = true ↔
      ∃ mf, c9db.files.find? (fun f => f.id == 1) = some mf
        ∧ mf.filetype = "images"
        ∧ (c9fs.pathExists mf.filepath = true
            ∨ c9fs.pathExists (uploadPath mf.filename) = true) :=
  (c9_image_serving c9db c9fs 1).1

/-- C10: with the seeded roles table, registration guarded only by the
static API key (the handler takes no bearer identity and checks no caller
role) succeeds exactly when the username is fresh and the requested role
name — `super admin` included — is one of the four seeded names, and on
success the stored user carries exactly the requested role. -/
theorem c10_registration (db : DB) (hroles : db.roles = seededRoles)
    (user : UserCreate) :
    (exceptOk (create_user db API_KEY user) = true ↔
      ((db.users.any (fun u => u.username == user.username)) = false
        ∧ user.role ∈ ["super admin", "admin", "editor", "viewer"]))
    ∧ (∀ db' msg, create_user db API_KEY user = .ok (db', msg) →
        ∃ nu ∈ db'.users, nu.username = user.username
          ∧ userRoleName db' nu = some user.role) := by
  have hkey : verify_api_key API_KEY = .ok API_KEY := rfl
  by_cases hex : (db.users.any (fun u => u.username == user.username)) = true
  · constructor
    · simp [create_user, hkey, hex, exceptOk]
    · intro db' msg h
      simp [create_user, hkey, hex] at h
  · have hex' : (db.users.any (fun u => u.username == user.username)) = false := by
      simpa using hex
    cases hr : db.roles.find? (fun r => r.name == user.role) with
    | none =>
      have hnotin : user.role ∉ ["super admin", "admin", "editor", "viewer"] := by
        intro hin
        rw [hroles] at hr
        simp only [List.mem_cons, List.mem_singleton, List.not_mem_nil,
          or_false] at hin
        rcases hin with h | h | h | h <;> rw [h] at hr <;>
          simp [seededRoles, List.find?] at hr
      constructor
      · simp [create_user, hkey, hex', hr, exceptOk, hnotin]
      · intro db' msg h
        simp [create_user, hkey, hex', hr] at h
    | some role_obj =>
      have hname : role_obj.name = user.role := by
        simpa using List.find?_some hr
      have hmem : role_obj ∈ seededRoles := by
        rw [← hroles]
        exact List.mem_of_find?_eq_some hr
      have hin : user.role ∈ ["super admin", "admin", "editor", "viewer"] := by
        rw [← hname]
        simp only [seededRoles, List.mem_cons, List.mem_singleton,
          List.not_mem_nil, or_false] at hmem
        rcases hmem with rfl | rfl | rfl | rfl <;> simp
      constructor
      · simp [create_user, hkey, hex', hr, exceptOk, hin]
      · intro db' msg h
        simp only [create_user, hkey, hex', hr, Bool.false_eq_true, if_false,
          ite_false, Except.ok.injEq, Prod.mk.injEq] at h
        obtain ⟨hdb, -⟩ := h
        subst hdb
        refine ⟨_, List.mem_append_right _ (List.mem_singleton.mpr rfl), rfl, ?_⟩
        simp only [seededRoles, List.mem_cons, List.mem_singleton,
          List.not_mem_nil, or_false] at hmem
        rcases hmem with rfl | rfl | rfl | rfl <;>
          simp [userRoleName, findRoleById, hroles, seededRoles] <;>
            exact hname

/-- C10 witness: against the freshly seeded `c10db`, registering the name
`alice` with role `super admin` succeeds exactly when characterized. -/
theorem c10_witness :
    exceptOk (create_user c10db API_KEY
        { username := "alice", password := "password123", role := "super admin" })
        = true ↔
      ((c10db.users.any (fun u => u.username == "alice")) = false
        ∧ ("super admin" : String) ∈ ["super admin", "admin", "editor", "viewer"]) :=
  (c10_registration c10db rfl
    { username := "alice", password := "password123", role := "super admin" }).1

end MoviesApi
